import Mathlib

/-
  Verification development for DivvyDroid's `src/device/videothread.cpp`
  (H.264 screen-capture decode loop and native snapshot loop).

  The C++ source is shallowly embedded below: each embedded definition
  mirrors one function of the source file, with the external environment
  (socket, FFmpeg demuxer/decoder results, device state) supplied as an
  explicit trace of events.  Raw pointers and alloc/free calls are
  modelled by a resource state with allocation identifiers, so that
  double frees and null dereferences become observable faults.
-/

set_option autoImplicit false

namespace DivvyDroid

/-! ## FFmpeg error sentinels

`AVERROR(EAGAIN)` on Linux is `-11`; `AVERROR_EOF` is
`-(int)MKTAG('E','O','F',' ') = -541478725`.  These are the two codes the
loop at videothread.cpp:241 treats as "drain the decoder". -/

def AVERROR_EAGAIN : Int := -11

def AVERROR_EOF : Int := -541478725

/-! ## Images

`QImage` is modelled by its observable attributes: pixel dimensions, the
pixel format the code requests, and whether the image is the solid-black
placeholder synthesized in `nativeLoop`. -/

inductive PixFmt where
  | RGB888
  | otherFmt
  deriving DecidableEq, Repr

structure QImage where
  width : Nat
  height : Nat
  format : PixFmt
  isBlack : Bool
  deriving DecidableEq, Repr

/-- Modelled from the spec: `QImage::scaledToWidth` belongs to the external
GUI/image layer (Qt), which the spec describes as rescaling "to the
configured output width (preserving aspect via a smooth resampling
filter)".  The width becomes `w` and the height is scaled by the same
factor; all other attributes are preserved. -/
def QImage.scaledToWidth (img : QImage) (w : Nat) : QImage :=
  { img with width := w, height := img.height * w / img.width }

/-- The frame constructed at videothread.cpp:274:
`QImage img(m_imageWidth, m_imageHeight, QImage::Format_RGB888)`,
filled scanline-by-scanline from the scaled RGB frame. -/
def decodedFrame (w h : Nat) : QImage :=
  { width := w, height := h, format := .RGB888, isBlack := false }

/-- The placeholder synthesized at videothread.cpp:331-332:
`QImage(m_imageWidth, m_imageHeight, Format_RGB888)` filled with black. -/
def blackImage (w h : Nat) : QImage :=
  { width := w, height := h, format := .RGB888, isBlack := true }

/-! ## ByteSource adapter (`read_packet` lambda, videothread.cpp:90-122)

One call of the lambda is driven by the initial `bytesAvailable()` count
and a trace of wait-loop iterations; each `WaitEvent` records what the
socket reported during one pass of the `while (len == 0)` loop. -/

inductive SocketError where
  | SocketTimeoutError
  | RemoteHostClosedError
  | OtherSocketError
  deriving DecidableEq, Repr

structure WaitEvent where
  /-- `m_adb->isConnected()` at the top of this pass. -/
  connected : Bool
  /-- Result of `h264Connect()` when attempted (only consulted when
  `connected = false`). -/
  reconnectOk : Bool
  /-- Result of `m_adb->waitForReadyRead(50)`. -/
  waitOk : Bool
  /-- `isInterruptionRequested()` right after the wait. -/
  interrupted : Bool
  /-- `m_adb->error()` (only consulted when `waitOk = false`). -/
  err : SocketError
  /-- `m_adb->bytesAvailable()` re-read after a successful wait. -/
  avail : Nat
  deriving DecidableEq, Repr

/-- Which exit path of the lambda produced the return value (the source
distinguishes them only through the `qDebug` diagnostics). -/
inductive FillBranch where
  | reconnectFailed
  | interruptedExit
  | hostDisconnected
  | sockError
  | readCallFailed
  | filled
  deriving DecidableEq, Repr

structure FillOutcome where
  /-- The `int` the lambda returns. -/
  ret : Int
  branch : FillBranch
  /-- The `len` value used for the copy (0 on the error branches). -/
  avail : Nat
  deriving DecidableEq, Repr

/-- The body of the `read_packet` lambda.  `len` carries the current
`bytesAvailable` count; the event list feeds the `while (len == 0)` wait
loop; `readOk` is the result of the final `m_adb->read(buf, len)`.
`none` means the wait loop is still blocking (the trace ended with no
data and no terminal condition). -/
def readPacketLoop (bufSize : Nat) (readOk : Bool) : Nat → List WaitEvent → Option FillOutcome
  | len, evs =>
    if len ≠ 0 then
      -- `if (len > buf_size) len = buf_size; if (!read(...)) return -1; return len;`
      if readOk then
        some { ret := (min len bufSize : Nat), branch := .filled, avail := len }
      else
        some { ret := -1, branch := .readCallFailed, avail := 0 }
    else
      match evs with
      | [] => none
      | ev :: rest =>
        if !ev.connected && !ev.reconnectOk then
          some { ret := -1, branch := .reconnectFailed, avail := 0 }
        else if ev.interrupted then
          some { ret := -1, branch := .interruptedExit, avail := 0 }
        else if !ev.waitOk then
          match ev.err with
          | .RemoteHostClosedError =>
            -- qDebug() << "FRAMEBUFFER host disconnected"; return -1;
            some { ret := -1, branch := .hostDisconnected, avail := 0 }
          | .SocketTimeoutError => readPacketLoop bufSize readOk 0 rest
          | .OtherSocketError =>
            -- qDebug() << "FRAMEBUFFER read failed:"; return -1;
            some { ret := -1, branch := .sockError, avail := 0 }
        else
          readPacketLoop bufSize readOk ev.avail rest

/-- One call of the `read_packet` lambda: `initialAvail` is
`m_adb->bytesAvailable()` before the wait loop; the buffer capacity at the
call site (videothread.cpp:124,130) is 8192. -/
def read_packet (initialAvail bufSize : Nat) (readOk : Bool)
    (evs : List WaitEvent) : Option FillOutcome :=
  readPacketLoop bufSize readOk initialAvail evs

/-! ## Stream selection (`h264VideoStreamIndex`, videothread.cpp:164-219)

Each contained stream is abstracted to the outcomes of the sub-steps the
loop body performs on it. -/

structure StreamDesc where
  /-- `codecpar->codec_type == AVMEDIA_TYPE_VIDEO`. -/
  isVideo : Bool
  /-- `avcodec_find_decoder(...) != nullptr`. -/
  hasDecoder : Bool
  /-- `avcodec_alloc_context3(dec) != nullptr`. -/
  allocOk : Bool
  /-- `avcodec_parameters_to_context(...) >= 0`. -/
  paramsOk : Bool
  /-- `m_codecCtx->codec_type == AVMEDIA_TYPE_VIDEO` after the copy. -/
  ctxTypeVideo : Bool
  /-- `avcodec_open2(...) >= 0`. -/
  openOk : Bool
  deriving DecidableEq, Repr

/-- A stream survives every sub-step of the selection loop body (each
`continue` in the source corresponds to one failing conjunct). -/
def streamOpens (s : StreamDesc) : Bool :=
  s.isVideo && s.hasDecoder && s.allocOk && s.paramsOk && s.ctxTypeVideo && s.openOk

/-- The `for` loop of `h264VideoStreamIndex`: `i` is the loop counter,
`cur` the running `streamIndex` value (initially -1); on each fully
successful candidate the body ends with `streamIndex = i`, and the loop
never exits early. -/
def h264VideoStreamIndexAux : List StreamDesc → Nat → Int → Int
  | [], _, cur => cur
  | s :: rest, i, cur =>
    h264VideoStreamIndexAux rest (i + 1) (if streamOpens s then (i : Int) else cur)

def h264VideoStreamIndex (streams : List StreamDesc) : Int :=
  h264VideoStreamIndexAux streams 0 (-1)

/-! ## Decode loop (`h264Loop`, videothread.cpp:221-296)

Each outer `while` iteration is driven by a `LoopStep`: the interruption
flag sampled by the loop guard, the result of `av_read_frame`, the packet's
stream index, the result of `avcodec_send_packet`, and the successive
results of `avcodec_receive_frame` in the inner drain loop. -/

inductive LogTag where
  | readFrameFailed
  | sendPacketFailed
  | receiveFrameFailed
  deriving DecidableEq, Repr

structure LoopStep where
  /-- `isInterruptionRequested()` at the loop guard. -/
  interrupted : Bool
  /-- Return of `av_read_frame(m_avFormat, &pkt)`. -/
  readRet : Int
  /-- `pkt.stream_index` as produced by a successful read. -/
  pktStream : Int
  /-- Return of `avcodec_send_packet(m_codecCtx, &pkt)`. -/
  sendRet : Int
  /-- Successive returns of `avcodec_receive_frame(m_codecCtx, m_frame)`. -/
  recvs : List Int
  deriving DecidableEq, Repr

/-- The inner drain loop (videothread.cpp:256-284): pull decoded frames
until `EAGAIN`/`AVERROR_EOF` (clean stop) or another negative result
(logged stop); each success scales into the RGB buffer and emits a
`QImage(m_imageWidth, m_imageHeight, Format_RGB888)`. -/
def receiveFrames (w h : Nat) : List Int → List QImage × Option LogTag
  | [] => ([], none)
  | r :: rest =>
    if r = AVERROR_EAGAIN ∨ r = AVERROR_EOF then
      ([], none)
    else if r < 0 then
      ([], some .receiveFrameFailed)
    else
      let (fs, lg) := receiveFrames w h rest
      (decodedFrame w h :: fs, lg)

inductive ExitKind where
  | interrupted
  | readFatal
  | sendFatal
  | drained
  | initFailed
  | noStream
  | fuelOut
  deriving DecidableEq, Repr

/-- Result of one outer iteration: the frames it emitted, the diagnostics
it logged, whether `av_packet_unref(&pkt)` (videothread.cpp:287) was
reached, and whether the loop exits (`some k`) or goes back to the top
(`none`). -/
structure IterOut where
  frames : List QImage
  logs : List LogTag
  unrefRan : Bool
  exit : Option ExitKind
  deriving DecidableEq, Repr

/-- One iteration of the outer `while` of `h264Loop`. -/
def loopIter (w h : Nat) (streamIndex : Int) (ev : LoopStep) : IterOut :=
  if ev.interrupted then
    { frames := [], logs := [], unrefRan := false, exit := some .interrupted }
  else
    let ret := ev.readRet
    let drainDecoder := ret = AVERROR_EAGAIN ∨ ret = AVERROR_EOF
    if ret < 0 ∧ ¬drainDecoder then
      -- qDebug() << "FRAMEBUFFER av_read_frame() failed:"; break;
      { frames := [], logs := [.readFrameFailed], unrefRan := false,
        exit := some .readFatal }
    else if ev.pktStream = streamIndex ∨ drainDecoder then
      if ev.sendRet < 0 then
        if ev.sendRet ≠ AVERROR_EAGAIN then
          -- qDebug() << "FRAMEBUFFER avcodec_send_packet() failed:"; break;
          { frames := [], logs := [.sendPacketFailed], unrefRan := false,
            exit := some .sendFatal }
        else
          -- `continue;` — skips av_packet_unref and the drainDecoder check
          { frames := [], logs := [], unrefRan := false, exit := none }
      else
        let (fs, lg) := receiveFrames w h ev.recvs
        { frames := fs, logs := lg.toList, unrefRan := true,
          exit := if drainDecoder then some .drained else none }
    else
      { frames := [], logs := [], unrefRan := true,
        exit := if drainDecoder then some .drained else none }

structure LoopOut where
  /-- The local `res` flag: set to `true` each time a frame is emitted. -/
  res : Bool
  frames : List QImage
  logs : List LogTag
  exit : ExitKind
  deriving DecidableEq, Repr

/-- The outer `while (!isInterruptionRequested())` loop, run over a finite
trace of iteration events; an exhausted trace reports `fuelOut`. -/
def h264LoopRun (w h : Nat) (streamIndex : Int) : List LoopStep → LoopOut
  | [] => { res := false, frames := [], logs := [], exit := .fuelOut }
  | ev :: rest =>
    let o := loopIter w h streamIndex ev
    match o.exit with
    | some k => { res := !o.frames.isEmpty, frames := o.frames, logs := o.logs, exit := k }
    | none =>
      let r := h264LoopRun w h streamIndex rest
      { res := !o.frames.isEmpty || r.res, frames := o.frames ++ r.frames,
        logs := o.logs ++ r.logs, exit := r.exit }

/-! ## Resource model and teardown (`h264Exit`, videothread.cpp:298-314)

Every allocation carries an identifier; `live` is the set of identifiers
not yet freed.  Freeing an identifier outside `live` is a double free;
following a null member pointer is a null dereference; following a member
pointer whose object was freed is a use after free.  Member pointers of
the `VideoThread` object mirror the source fields; `rgbData` stands for
`m_rgbFrame->data[0]`, reachable only through `m_rgbFrame`. -/

inductive Fault where
  | nullDeref
  | doubleFree
  | useAfterFree
  deriving DecidableEq, Repr

structure Resources where
  live : List Nat
  swsContext : Option Nat
  frame : Option Nat
  rgbFrame : Option Nat
  rgbData : Option Nat
  codecCtx : Option Nat
  avFormat : Option Nat
  ioCtx : Option Nat
  deriving DecidableEq, Repr

def freeId (live : List Nat) (id : Nat) : Except Fault (List Nat) :=
  if id ∈ live then .ok (live.erase id) else .error .doubleFree

/-- `VideoThread::h264Exit`, line by line:
`if (m_swsContext) sws_freeContext(m_swsContext);` (pointer not cleared);
`av_frame_free(&m_frame);` (no-op on null, clears the pointer);
`av_freep(&m_rgbFrame->data[0]);` (dereferences `m_rgbFrame`);
`av_frame_free(&m_rgbFrame);`;
`if (m_codecCtx) avcodec_free_context(&m_codecCtx);`;
`if (m_avFormat) { ioContext = m_avFormat->pb; avformat_close_input(&m_avFormat); avio_context_free(&ioContext); }`. -/
def h264Exit (r0 : Resources) : Except Fault Resources := do
  -- if (m_swsContext) sws_freeContext(m_swsContext);
  let r1 ← match r0.swsContext with
    | none => pure r0
    | some id => do
      let l ← freeId r0.live id
      pure { r0 with live := l }
  -- av_frame_free(&m_frame);
  let r2 ← match r1.frame with
    | none => pure r1
    | some id => do
      let l ← freeId r1.live id
      pure { r1 with live := l, frame := none }
  -- av_freep(&m_rgbFrame->data[0]);
  let r3 ← match r2.rgbFrame with
    | none => Except.error Fault.nullDeref
    | some fid =>
      if fid ∈ r2.live then
        match r2.rgbData with
        | none => pure { r2 with rgbData := none }
        | some did => do
          let l ← freeId r2.live did
          pure { r2 with live := l, rgbData := none }
      else
        Except.error Fault.useAfterFree
  -- av_frame_free(&m_rgbFrame);
  let r4 ← match r3.rgbFrame with
    | none => pure r3
    | some id => do
      let l ← freeId r3.live id
      pure { r3 with live := l, rgbFrame := none }
  -- if (m_codecCtx) avcodec_free_context(&m_codecCtx);
  let r5 ← match r4.codecCtx with
    | none => pure r4
    | some id => do
      let l ← freeId r4.live id
      pure { r4 with live := l, codecCtx := none }
  -- if (m_avFormat) { ... avformat_close_input ... avio_context_free ... }
  match r5.avFormat with
  | none => pure r5
  | some fid => do
    let l ← freeId r5.live fid
    let r6 := { r5 with live := l, avFormat := none }
    match r6.ioCtx with
    | none => pure r6
    | some iid => do
      let l2 ← freeId r6.live iid
      pure { r6 with live := l2, ioCtx := none }

/-- Member state after `h264Init` succeeded but before stream selection
(or after selection found no stream): buffer frames, output pixel storage,
format context and custom I/O context exist; decoder and scaler do not.
Identifiers: frame 2, rgbFrame 3, rgbData 4, avFormat 6, ioCtx 7. -/
def resourcesAfterInit : Resources :=
  { live := [2, 3, 4, 6, 7], swsContext := none, frame := some 2,
    rgbFrame := some 3, rgbData := some 4, codecCtx := none,
    avFormat := some 6, ioCtx := some 7 }

/-- Member state after `h264Init` failed at `avformat_open_input`
(which frees the format context and nulls the member; the custom I/O
context remains allocated). -/
def resourcesOpenFail : Resources :=
  { live := [2, 3, 4, 7], swsContext := none, frame := some 2,
    rgbFrame := some 3, rgbData := some 4, codecCtx := none,
    avFormat := none, ioCtx := some 7 }

/-- Member state after stream selection succeeded: additionally the scaler
context (id 1) and the decoder context (id 5) exist. -/
def resourcesAfterSelect : Resources :=
  { live := [1, 2, 3, 4, 5, 6, 7], swsContext := some 1, frame := some 2,
    rgbFrame := some 3, rgbData := some 4, codecCtx := some 5,
    avFormat := some 6, ioCtx := some 7 }

/-! ## Whole `h264Loop`, including its early exits and teardown -/

structure H264Env where
  /-- Whether `h264Init()` succeeded (probe and stream-info analysis). -/
  initOk : Bool
  /-- The streams the probe discovered. -/
  streams : List StreamDesc
  /-- The trace of decode-loop iterations. -/
  steps : List LoopStep
  deriving Repr

/-- `VideoThread::h264Loop`: init, stream selection, the decode loop, and
`h264Exit()` on every exit path.  The second component is the teardown
outcome on the member state the path reaches. -/
def h264Loop (w h : Nat) (env : H264Env) : LoopOut × Except Fault Resources :=
  if !env.initOk then
    ({ res := false, frames := [], logs := [], exit := .initFailed },
     h264Exit resourcesAfterInit)
  else
    let streamIndex := h264VideoStreamIndex env.streams
    if streamIndex = -1 then
      ({ res := false, frames := [], logs := [], exit := .noStream },
       h264Exit resourcesAfterInit)
    else
      (h264LoopRun w h streamIndex env.steps, h264Exit resourcesAfterSelect)

/-! ## Snapshot loop (`nativeLoop`, videothread.cpp:316-337) -/

/-- Modelled from the spec: the `VideMode` enumeration is declared in
`videothread.h`, which is not part of the sources; the four values are the
ones `videothread.cpp` names (`FastH264` selects the decode loop in
`run()`; the three `Native*` values are the still-image formats). -/
inductive VideMode where
  | FastH264
  | NativeJpg
  | NativeRaw
  | NativePng
  deriving DecidableEq, Repr

structure NativeStep where
  /-- `isInterruptionRequested()` at the loop guard. -/
  interrupted : Bool
  /-- `aDev->isScreenAwake()`. -/
  awake : Bool
  /-- Image returned by `m_adb->fetchScreenJpeg()`. -/
  jpg : QImage
  /-- Image returned by `m_adb->fetchScreenRaw()`. -/
  raw : QImage
  /-- Image returned by `m_adb->fetchScreenPng()`. -/
  png : QImage
  deriving DecidableEq, Repr

inductive NativeExit where
  | interrupted
  /-- The `return;` in the final `else` of the mode dispatch. -/
  | badModeReturn
  | fuelOut
  deriving DecidableEq, Repr

/-- The image selected by one `nativeLoop` iteration: a device fetch in the
configured still-image format when the screen is awake (`none` encodes the
`return;` of the final `else`), the black placeholder otherwise. -/
def nativeSource (mode : VideMode) (w h : Nat) (ev : NativeStep) : Option QImage :=
  if ev.awake then
    match mode with
    | .NativeJpg => some ev.jpg
    | .NativeRaw => some ev.raw
    | .NativePng => some ev.png
    | .FastH264 => none
  else
    some (blackImage w h)

/-- `VideoThread::nativeLoop`: each iteration picks a source image, emits
`img.scaledToWidth(m_imageWidth, Qt::SmoothTransformation)` and sleeps
(`msleep` carries no observable state and is not modelled). -/
def nativeLoop (mode : VideMode) (w h : Nat) : List NativeStep → List QImage × NativeExit
  | [] => ([], .fuelOut)
  | ev :: rest =>
    if ev.interrupted then
      ([], .interrupted)
    else
      match nativeSource mode w h ev with
      | none => ([], .badModeReturn)
      | some img =>
        (img.scaledToWidth w :: (nativeLoop mode w h rest).1, (nativeLoop mode w h rest).2)

/-- Position of the last stream that opens successfully, used to state the
"last candidate wins" behaviour of the selection loop. -/
def lastOpenIdx : List StreamDesc → Option Nat
  | [] => none
  | s :: rest =>
    match lastOpenIdx rest with
    | some j => some (j + 1)
    | none => if streamOpens s then some 0 else none

/-! ## Theorems -/

theorem h264LoopRun_res_iff (w h : Nat) (si : Int) (steps : List LoopStep) :
    (h264LoopRun w h si steps).res = true ↔ (h264LoopRun w h si steps).frames ≠ [] := by
  induction steps with
  | nil => simp [h264LoopRun]
  | cons ev rest ih =>
    simp only [h264LoopRun]
    cases hx : (loopIter w h si ev).exit with
    | some k =>
      simp [List.isEmpty_iff]
    | none =>
      simp only [Bool.or_eq_true, Bool.not_eq_true', List.isEmpty_eq_false,
        ne_eq, List.append_eq_nil, not_and]
      constructor
      · rintro (hne | hres)
        · intro hcon; exact absurd hcon hne
        · intro _; exact (ih.mp hres)
      · intro hcon
        by_cases hne : (loopIter w h si ev).frames = []
        · exact Or.inr (ih.mpr (hcon hne))
        · exact Or.inl hne

/-- C1: the decode loop returns success exactly when at least one frame was
emitted before exit — on the probe-failure path, the stream-selection
failure path, and every termination of the main loop (fatal read or send
error, drain-triggered end, interruption, exhausted trace) alike. -/
theorem h264Loop_success_iff_frame_emitted (w h : Nat) (env : H264Env) :
    (h264Loop w h env).1.res = true ↔ (h264Loop w h env).1.frames ≠ [] := by
  unfold h264Loop
  by_cases hinit : env.initOk
  · by_cases hsel : h264VideoStreamIndex env.streams = -1
    · simp [hinit, hsel]
    · simpa [hinit, hsel] using h264LoopRun_res_iff w h (h264VideoStreamIndex env.streams) env.steps
  · simp [Bool.not_eq_true] at hinit
    simp [hinit]

/-- C2 counterexample: teardown is not idempotent.  After one complete
`h264Exit` on the fully-initialised member state, a second call frees the
scaler context again (the source never clears `m_swsContext`), a double
free; it would also dereference the already-nulled `m_rgbFrame`. -/
theorem h264Exit_double_call_faults :
    (h264Exit resourcesAfterSelect).bind h264Exit = Except.error Fault.doubleFree := by
  rfl

/-- C2 amended: a SINGLE teardown call is safe and order-correct from every
exit path — full initialisation, probe succeeded but no stream selected
(decoder and scaler never created), and probe failure at open — but the
operation is not idempotent: a second call double-frees (see the
counterexample). -/
theorem h264Exit_single_call_safe :
    (∃ r, h264Exit resourcesAfterSelect = Except.ok r) ∧
    (∃ r, h264Exit resourcesAfterInit = Except.ok r) ∧
    (∃ r, h264Exit resourcesOpenFail = Except.ok r) :=
  ⟨⟨_, rfl⟩, ⟨_, rfl⟩, ⟨_, rfl⟩⟩

/-- C3 counterexample: a remote-closed connection makes the fill callback
return the generic failure value -1 — not a distinct end-of-input sentinel
(`AVERROR_EOF`) — so the decode loop's iteration on the propagated negative
result exits through the logged fatal-read branch, not the drain path. -/
theorem remoteClosed_counterexample :
    read_packet 0 8192 true
      [{ connected := true, reconnectOk := true, waitOk := false, interrupted := false,
         err := .RemoteHostClosedError, avail := 0 }] =
      some { ret := -1, branch := .hostDisconnected, avail := 0 } ∧
    (-1 : Int) ≠ AVERROR_EOF ∧
    loopIter 480 800 0
      { interrupted := false, readRet := -1, pktStream := 0, sendRet := 0, recvs := [] } =
      { frames := [], logs := [.readFrameFailed], unrefRan := false,
        exit := some .readFatal } := by
  refine ⟨rfl, by decide, rfl⟩

/-- C3 amended: when the connection reports remote-closed during the fill,
the callback returns -1 — the same generic failure value as every fatal
error, with only the log message differing — and a read result carrying
such a plain negative error (neither `AVERROR(EAGAIN)` nor `AVERROR_EOF`)
makes the decode loop terminate through the logged fatal-read branch
rather than the clean end-of-input drain path. -/
theorem remoteClosed_is_generic_failure (bufSize : Nat) (readOk : Bool)
    (ev : WaitEvent) (rest : List WaitEvent)
    (hc : ev.connected = true) (hi : ev.interrupted = false)
    (hw : ev.waitOk = false) (he : ev.err = .RemoteHostClosedError) :
    read_packet 0 bufSize readOk (ev :: rest) =
      some { ret := -1, branch := .hostDisconnected, avail := 0 } ∧
    (-1 : Int) ≠ AVERROR_EOF ∧ (-1 : Int) ≠ AVERROR_EAGAIN ∧
    (∀ (w h : Nat) (si : Int) (st : LoopStep),
      st.interrupted = false → st.readRet = -1 →
      loopIter w h si st =
        { frames := [], logs := [.readFrameFailed], unrefRan := false,
          exit := some .readFatal }) := by
  refine ⟨?_, by decide, by decide, ?_⟩
  · simp [read_packet, readPacketLoop, hc, hi, hw, he]
  · intro w h si st hsi hsr
    simp only [loopIter, hsi, Bool.false_eq_true, if_false, hsr]
    norm_num [AVERROR_EAGAIN, AVERROR_EOF]

theorem remoteClosed_is_generic_failure_witness :
    read_packet 0 8192 true
      [{ connected := true, reconnectOk := true, waitOk := false, interrupted := false,
         err := .RemoteHostClosedError, avail := 0 }] =
      some { ret := -1, branch := .hostDisconnected, avail := 0 } :=
  (remoteClosed_is_generic_failure 8192 true _ [] rfl rfl rfl rfl).1

/-- C4 counterexample: a transient-starvation read result (`EAGAIN`)
terminates the loop after the drain pass even though it is not the
end-of-input flavour: with a second iteration available that would emit a
frame, the run still ends at the first (EAGAIN) iteration with zero frames
and exit kind `drained`. -/
theorem eagain_read_terminates_counterexample :
    AVERROR_EAGAIN ≠ AVERROR_EOF ∧
    h264LoopRun 480 800 0
      [{ interrupted := false, readRet := AVERROR_EAGAIN, pktStream := 0,
         sendRet := 0, recvs := [AVERROR_EAGAIN] },
       { interrupted := false, readRet := 0, pktStream := 0,
         sendRet := 0, recvs := [0, AVERROR_EAGAIN] }] =
      { res := false, frames := [], logs := [], exit := .drained } := by
  refine ⟨by decide, by decide⟩

/-- C4 amended: a drain pass is triggered by `EAGAIN` and by `AVERROR_EOF`
alike, and in both cases the loop terminates after the pass rather than
returning to Reading; the only escape back to Reading is the flush submit
itself reporting try-again (and any other submit failure is fatal). -/
theorem drain_pass_exit (w h : Nat) (si : Int) (ev : LoopStep)
    (hi : ev.interrupted = false)
    (hd : ev.readRet = AVERROR_EAGAIN ∨ ev.readRet = AVERROR_EOF) :
    (loopIter w h si ev).exit =
      (if ev.sendRet = AVERROR_EAGAIN then none
       else if ev.sendRet < 0 then some .sendFatal
       else some .drained) := by
  simp only [loopIter, hi, Bool.false_eq_true, if_false]
  have hnf : ¬(ev.readRet < 0 ∧
      ¬(ev.readRet = AVERROR_EAGAIN ∨ ev.readRet = AVERROR_EOF)) := by
    rintro ⟨-, hcon⟩; exact hcon hd
  rw [if_neg hnf, if_pos (Or.inr hd)]
  by_cases hneg : ev.sendRet < 0
  · by_cases hs : ev.sendRet = AVERROR_EAGAIN
    · rw [if_pos hneg, if_neg (not_not_intro hs), if_pos hs]
    · rw [if_pos hneg, if_pos hs, if_neg hs, if_pos hneg]
  · have hs : ev.sendRet ≠ AVERROR_EAGAIN := by
      intro hcon; rw [hcon] at hneg; exact hneg (by decide)
    rw [if_neg hneg, if_neg hs, if_neg hneg, if_pos hd]

theorem drain_pass_exit_witness :
    (loopIter 480 800 0
      { interrupted := false, readRet := AVERROR_EAGAIN, pktStream := 0,
        sendRet := 0, recvs := [AVERROR_EAGAIN] }).exit = some ExitKind.drained := by
  have h := drain_pass_exit 480 800 0
    { interrupted := false, readRet := AVERROR_EAGAIN, pktStream := 0,
      sendRet := 0, recvs := [AVERROR_EAGAIN] } rfl (Or.inl rfl)
  simpa using h

/-- C5 counterexample: when the decoder reports try-again on feed, the
`continue` skips `av_packet_unref`: the iteration re-enters Reading
(`exit = none`) but the access unit's reference is NOT released
(`unrefRan = false`), contradicting "its reference released". -/
theorem send_eagain_skips_unref_counterexample :
    loopIter 480 800 0
      { interrupted := false, readRet := 0, pktStream := 0,
        sendRet := AVERROR_EAGAIN, recvs := [] } =
      { frames := [], logs := [], unrefRan := false, exit := none } := by
  decide

/-- C5 amended: a try-again from `avcodec_send_packet` never terminates the
loop — control returns to Reading exactly once per such report, with no
frame emitted and nothing logged — but the access unit is not discarded:
the early `continue` skips the `av_packet_unref` call. -/
theorem send_eagain_continue (w h : Nat) (si : Int) (ev : LoopStep)
    (hi : ev.interrupted = false)
    (hr : ¬(ev.readRet < 0 ∧
      ¬(ev.readRet = AVERROR_EAGAIN ∨ ev.readRet = AVERROR_EOF)))
    (hp : ev.pktStream = si ∨ ev.readRet = AVERROR_EAGAIN ∨ ev.readRet = AVERROR_EOF)
    (hs : ev.sendRet = AVERROR_EAGAIN) :
    loopIter w h si ev =
      { frames := [], logs := [], unrefRan := false, exit := none } := by
  have hneg : ev.sendRet < 0 := by rw [hs]; decide
  simp only [loopIter, hi, Bool.false_eq_true, if_false]
  rw [if_neg hr, if_pos hp, if_pos hneg, if_neg (by simp [hs])]

theorem send_eagain_continue_witness :
    loopIter 480 800 0
      { interrupted := false, readRet := 0, pktStream := 0,
        sendRet := AVERROR_EAGAIN, recvs := [] } =
      { frames := [], logs := [], unrefRan := false, exit := none } := by
  have h := send_eagain_continue 480 800 0
    { interrupted := false, readRet := 0, pktStream := 0,
      sendRet := AVERROR_EAGAIN, recvs := [] }
    rfl (by decide) (Or.inl rfl) rfl
  exact h

theorem h264VideoStreamIndexAux_eq (streams : List StreamDesc) :
    ∀ (i : Nat) (cur : Int),
      h264VideoStreamIndexAux streams i cur =
        (match lastOpenIdx streams with
         | none => cur
         | some j => ((i + j : Nat) : Int)) := by
  induction streams with
  | nil => intro i cur; rfl
  | cons s rest ih =>
    intro i cur
    simp only [h264VideoStreamIndexAux, lastOpenIdx]
    rw [ih]
    cases hrest : lastOpenIdx rest with
    | some j =>
      simp only []
      congr 1
      omega
    | none =>
      by_cases hs : streamOpens s
      · simp [hs]
      · simp [hs]

theorem lastOpenIdx_none_iff (l : List StreamDesc) :
    lastOpenIdx l = none ↔ ∀ s ∈ l, streamOpens s = false := by
  induction l with
  | nil => simp [lastOpenIdx]
  | cons s rest ih =>
    simp only [lastOpenIdx]
    cases hrest : lastOpenIdx rest with
    | some j =>
      simp only [List.mem_cons]
      constructor
      · intro hcon; exact absurd hcon (by simp)
      · intro hall
        have : ∀ s' ∈ rest, streamOpens s' = false := fun s' hs' => hall s' (Or.inr hs')
        rw [ih.mpr this] at hrest
        exact absurd hrest (by simp)
    | none =>
      by_cases hs : streamOpens s
      · simp only [hs, if_true]
        constructor
        · intro hcon; exact absurd hcon (by simp)
        · intro hall
          have := hall s (List.mem_cons_self s rest)
          rw [hs] at this
          exact absurd this (by simp)
      · have hsf : streamOpens s = false := Bool.eq_false_iff.mpr hs
        simp only [hsf, Bool.false_eq_true, if_false, List.mem_cons]
        constructor
        · intro _ s' hs'
          rcases hs' with h | h
          · rw [h]; exact hsf
          · exact (ih.mp hrest) s' h
        · intro _; trivial

theorem lastOpenIdx_eq_of (l : List StreamDesc) :
    ∀ (j : Nat) (hj : j < l.length),
      streamOpens (l.get ⟨j, hj⟩) = true →
      (∀ (k : Nat) (hk : k < l.length), j < k → streamOpens (l.get ⟨k, hk⟩) = false) →
      lastOpenIdx l = some j := by
  induction l with
  | nil => intro j hj; exact absurd hj (by simp)
  | cons s rest ih =>
    intro j hj hopen hafter
    cases j with
    | zero =>
      have hrest : lastOpenIdx rest = none := by
        rw [lastOpenIdx_none_iff]
        intro s' hs'
        rcases List.mem_iff_get.mp hs' with ⟨⟨n, hn⟩, hget⟩
        have h2 := hafter (n + 1) (by simpa using Nat.succ_lt_succ hn) (Nat.succ_pos n)
        rw [← hget]
        simpa using h2
      simp only [lastOpenIdx, hrest]
      simp only [List.get] at hopen
      simp [hopen]
    | succ j' =>
      have hj' : j' < rest.length := by simpa using Nat.lt_of_succ_lt_succ hj
      have hopen' : streamOpens (rest.get ⟨j', hj'⟩) = true := by
        simpa [List.get] using hopen
      have hafter' : ∀ (k : Nat) (hk : k < rest.length), j' < k →
          streamOpens (rest.get ⟨k, hk⟩) = false := by
        intro k hk hlt
        have := hafter (k + 1) (by simpa using Nat.succ_lt_succ hk) (Nat.succ_lt_succ hlt)
        simpa [List.get] using this
      have := ih j' hj' hopen' hafter'
      simp [lastOpenIdx, this]

/-- C6: the selection loop visits every stream once with no early exit;
the returned index is -1 exactly when no candidate opens fully, and when
an index opens with every later index failing, that (last successful)
index is returned. -/
theorem h264VideoStreamIndex_last_wins (streams : List StreamDesc) :
    (h264VideoStreamIndex streams = -1 ↔ ∀ s ∈ streams, streamOpens s = false) ∧
    (∀ (i : Nat) (hi : i < streams.length),
      streamOpens (streams.get ⟨i, hi⟩) = true →
      (∀ (j : Nat) (hj : j < streams.length), i < j →
        streamOpens (streams.get ⟨j, hj⟩) = false) →
      h264VideoStreamIndex streams = (i : Int)) := by
  constructor
  · rw [h264VideoStreamIndex, h264VideoStreamIndexAux_eq, ← lastOpenIdx_none_iff]
    cases hl : lastOpenIdx streams with
    | none => simp
    | some j =>
      constructor
      · intro hcon
        have hcon' : ((0 + j : Nat) : Int) = -1 := hcon
        exfalso
        omega
      · intro hcon; exact absurd hcon (by simp)
  · intro i hi hopen hafter
    rw [h264VideoStreamIndex, h264VideoStreamIndexAux_eq,
      lastOpenIdx_eq_of streams i hi hopen hafter]
    simp

theorem h264VideoStreamIndex_last_wins_witness :
    h264VideoStreamIndex
      [{ isVideo := true, hasDecoder := true, allocOk := true, paramsOk := true,
         ctxTypeVideo := true, openOk := true },
       { isVideo := true, hasDecoder := true, allocOk := true, paramsOk := true,
         ctxTypeVideo := true, openOk := true },
       { isVideo := true, hasDecoder := false, allocOk := true, paramsOk := true,
         ctxTypeVideo := true, openOk := true }] = 1 := by
  have h := (h264VideoStreamIndex_last_wins
    [{ isVideo := true, hasDecoder := true, allocOk := true, paramsOk := true,
       ctxTypeVideo := true, openOk := true },
     { isVideo := true, hasDecoder := true, allocOk := true, paramsOk := true,
       ctxTypeVideo := true, openOk := true },
     { isVideo := true, hasDecoder := false, allocOk := true, paramsOk := true,
       ctxTypeVideo := true, openOk := true }]).2 1 (by decide) (by decide)
    (by intro j hj hlt
        have hj3 : j < 3 := by simpa using hj
        have hj2 : j = 2 := by omega
        subst hj2
        rfl)
  simpa using h

theorem readPacketLoop_spec (bufSize : Nat) (readOk : Bool) (hbs : 0 < bufSize) :
    ∀ (evs : List WaitEvent) (len : Nat) (o : FillOutcome),
      readPacketLoop bufSize readOk len evs = some o →
      (o.branch = .filled ∧ o.ret = ((min o.avail bufSize : Nat) : Int) ∧
        0 < o.ret ∧ 0 < o.avail) ∨
      (o.ret = -1 ∧ o.branch ≠ .filled) := by
  intro evs
  induction evs with
  | nil =>
    intro len o hsome
    rw [readPacketLoop] at hsome
    by_cases hlen : len ≠ 0
    · rw [if_pos hlen] at hsome
      by_cases hro : readOk
      · rw [if_pos hro, Option.some.injEq] at hsome
        subst hsome
        left
        refine ⟨rfl, rfl, ?_, Nat.pos_of_ne_zero hlen⟩
        have hl : 0 < len := Nat.pos_of_ne_zero hlen
        simp only []
        omega
      · rw [if_neg hro, Option.some.injEq] at hsome
        subst hsome
        right
        exact ⟨rfl, by decide⟩
    · rw [if_neg hlen] at hsome
      exact absurd hsome (by simp)
  | cons ev rest ih =>
    intro len o hsome
    rw [readPacketLoop] at hsome
    by_cases hlen : len ≠ 0
    · rw [if_pos hlen] at hsome
      by_cases hro : readOk
      · rw [if_pos hro, Option.some.injEq] at hsome
        subst hsome
        left
        refine ⟨rfl, rfl, ?_, Nat.pos_of_ne_zero hlen⟩
        have hl : 0 < len := Nat.pos_of_ne_zero hlen
        simp only []
        omega
      · rw [if_neg hro, Option.some.injEq] at hsome
        subst hsome
        right
        exact ⟨rfl, by decide⟩
    · rw [if_neg hlen] at hsome
      by_cases hc : (!ev.connected && !ev.reconnectOk) = true
      · rw [if_pos hc, Option.some.injEq] at hsome
        subst hsome
        exact Or.inr ⟨rfl, by decide⟩
      · rw [if_neg hc] at hsome
        by_cases hi : ev.interrupted = true
        · rw [if_pos hi, Option.some.injEq] at hsome
          subst hsome
          exact Or.inr ⟨rfl, by decide⟩
        · rw [if_neg hi] at hsome
          by_cases hwq : (!ev.waitOk) = true
          · rw [if_pos hwq] at hsome
            cases herr : ev.err with
            | RemoteHostClosedError =>
              rw [herr, Option.some.injEq] at hsome
              subst hsome
              exact Or.inr ⟨rfl, by decide⟩
            | SocketTimeoutError =>
              rw [herr] at hsome
              exact ih 0 o hsome
            | OtherSocketError =>
              rw [herr, Option.some.injEq] at hsome
              subst hsome
              exact Or.inr ⟨rfl, by decide⟩
          · rw [if_neg hwq] at hsome
            exact ih ev.avail o hsome

/-- C7: the byte-source fill never reports success with a zero count: every
call either delivers a positive count equal to min(available bytes, buffer
capacity), or returns through one of the terminal error paths with the
failure value -1 — and with zero bytes available and no arrival event it is
still blocked in its wait loop. -/
theorem read_packet_no_zero_success (initialAvail bufSize : Nat) (readOk : Bool)
    (evs : List WaitEvent) (o : FillOutcome) (hbs : 0 < bufSize)
    (ho : read_packet initialAvail bufSize readOk evs = some o) :
    ((o.branch = .filled ∧ o.ret = ((min o.avail bufSize : Nat) : Int) ∧
      0 < o.ret ∧ 0 < o.avail) ∨
     (o.ret = -1 ∧ o.branch ≠ .filled)) ∧
    read_packet 0 bufSize readOk [] = none := by
  refine ⟨readPacketLoop_spec bufSize readOk hbs evs initialAvail o ho, ?_⟩
  rw [read_packet, readPacketLoop]
  simp

theorem read_packet_no_zero_success_witness :
    read_packet 0 8192 true [] = none :=
  (read_packet_no_zero_success 100 8192 true []
    { ret := 100, branch := .filled, avail := 100 } (by decide) (by decide)).2

theorem h264LoopRun_interrupted (w h : Nat) (si : Int) (ev : LoopStep)
    (rest : List LoopStep) (hi : ev.interrupted = true) :
    h264LoopRun w h si (ev :: rest) =
      { res := false, frames := [], logs := [], exit := .interrupted } := by
  simp [h264LoopRun, loopIter, hi]

/-- C8: if the interruption flag is already set at the first loop guard,
zero frames are emitted, the loop reports failure, and teardown still runs
to completion; and in general an iteration that observes interruption at
the top of Reading emits no further frame. -/
theorem interruption_before_first_iteration (w h : Nat) (env : H264Env)
    (ev : LoopStep) (rest : List LoopStep)
    (hinit : env.initOk = true)
    (hsel : h264VideoStreamIndex env.streams ≠ -1)
    (hsteps : env.steps = ev :: rest)
    (hint : ev.interrupted = true) :
    (h264Loop w h env).1.frames = [] ∧ (h264Loop w h env).1.res = false ∧
    (h264Loop w h env).1.exit = .interrupted ∧
    (∃ r, (h264Loop w h env).2 = Except.ok r) ∧
    (∀ (si : Int) (ev2 : LoopStep) (rest2 : List LoopStep), ev2.interrupted = true →
      (h264LoopRun w h si (ev2 :: rest2)).frames = []) := by
  have hmain : h264Loop w h env =
      ({ res := false, frames := [], logs := [], exit := .interrupted },
        h264Exit resourcesAfterSelect) := by
    unfold h264Loop
    rw [hinit, hsteps]
    simp only [Bool.not_true, Bool.false_eq_true, if_false]
    rw [if_neg hsel]
    rw [h264LoopRun_interrupted w h _ ev rest hint]
  refine ⟨by rw [hmain], by rw [hmain], by rw [hmain], ?_, ?_⟩
  · rw [hmain]
    exact ⟨_, rfl⟩
  · intro si ev2 rest2 hi2
    rw [h264LoopRun_interrupted w h si ev2 rest2 hi2]

theorem interruption_before_first_iteration_witness :
    (h264Loop 480 800
      { initOk := true,
        streams := [{ isVideo := true, hasDecoder := true, allocOk := true,
                      paramsOk := true, ctxTypeVideo := true, openOk := true }],
        steps := [{ interrupted := true, readRet := 0, pktStream := 0,
                    sendRet := 0, recvs := [] }] }).1.frames = [] :=
  (interruption_before_first_iteration 480 800 _ _ [] rfl (by decide) rfl rfl).1

theorem receiveFrames_mem (w h : Nat) :
    ∀ (rs : List Int), ∀ f ∈ (receiveFrames w h rs).1, f = decodedFrame w h := by
  intro rs
  induction rs with
  | nil => simp [receiveFrames]
  | cons r rest ih =>
    simp only [receiveFrames]
    by_cases h1 : r = AVERROR_EAGAIN ∨ r = AVERROR_EOF
    · simp [h1]
    · by_cases h2 : r < 0
      · simp [h1, h2]
      · rw [if_neg h1, if_neg h2]
        intro f hf
        rcases List.mem_cons.mp hf with h3 | h3
        · exact h3
        · exact ih f h3

theorem loopIter_frames_mem (w h : Nat) (si : Int) (ev : LoopStep) :
    ∀ f ∈ (loopIter w h si ev).frames, f = decodedFrame w h := by
  unfold loopIter
  by_cases hi : ev.interrupted
  · simp [hi]
  · simp only [hi, Bool.false_eq_true, if_false]
    by_cases hr : ev.readRet < 0 ∧
        ¬(ev.readRet = AVERROR_EAGAIN ∨ ev.readRet = AVERROR_EOF)
    · simp [hr]
    · rw [if_neg hr]
      by_cases hp : ev.pktStream = si ∨
          (ev.readRet = AVERROR_EAGAIN ∨ ev.readRet = AVERROR_EOF)
      · rw [if_pos hp]
        by_cases hneg : ev.sendRet < 0
        · by_cases hs : ev.sendRet ≠ AVERROR_EAGAIN
          · simp [hneg, hs]
          · simp [hneg, hs]
        · rw [if_neg hneg]
          intro f hf
          exact receiveFrames_mem w h ev.recvs f hf
      · simp [hp]

theorem h264LoopRun_frames_mem (w h : Nat) (si : Int) :
    ∀ (steps : List LoopStep), ∀ f ∈ (h264LoopRun w h si steps).frames,
      f = decodedFrame w h := by
  intro steps
  induction steps with
  | nil => simp [h264LoopRun]
  | cons ev rest ih =>
    simp only [h264LoopRun]
    cases hx : (loopIter w h si ev).exit with
    | some k =>
      intro f hf
      exact loopIter_frames_mem w h si ev f hf
    | none =>
      intro f hf
      rcases List.mem_append.mp hf with h1 | h1
      · exact loopIter_frames_mem w h si ev f h1
      · exact ih f h1

theorem nativeLoop_frames_width (mode : VideMode) (w h : Nat) :
    ∀ (steps : List NativeStep), ∀ f ∈ (nativeLoop mode w h steps).1, f.width = w := by
  intro steps
  induction steps with
  | nil => simp [nativeLoop]
  | cons ev rest ih =>
    simp only [nativeLoop]
    by_cases hi : ev.interrupted
    · simp [hi]
    · simp only [hi, Bool.false_eq_true, if_false]
      cases hsrc : nativeSource mode w h ev with
      | none => simp
      | some img =>
        intro f hf
        rcases List.mem_cons.mp hf with h1 | h1
        · rw [h1]; rfl
        · exact ih f h1

/-- C9 counterexample: snapshot mode, output resolution 480×800, a 100×100
fetched screen image — the emitted frame is 480×480, not 480×800, because
`scaledToWidth` preserves the source image's aspect ratio. -/
theorem snapshot_frame_not_output_size :
    (nativeLoop .NativeJpg 480 800
      [{ interrupted := false, awake := true,
         jpg := { width := 100, height := 100, format := .RGB888, isBlack := false },
         raw := { width := 100, height := 100, format := .RGB888, isBlack := false },
         png := { width := 100, height := 100, format := .RGB888, isBlack := false } }]).1 =
      [{ width := 480, height := 480, format := .RGB888, isBlack := false }] ∧
    (480 : Nat) ≠ 800 := by
  refine ⟨by decide, by decide⟩

/-- C9 amended: in compressed-stream mode every emitted frame is exactly the
W×H RGB888 frame; in snapshot mode every emitted frame has width W but an
aspect-preserved height, which equals H only when the fetched image's
aspect ratio matches the configured one (the counterexample shows a
mismatch). -/
theorem emitted_frame_dimensions (w h : Nat) (env : H264Env) (mode : VideMode)
    (steps : List NativeStep) :
    (∀ f ∈ (h264Loop w h env).1.frames, f = decodedFrame w h) ∧
    (∀ f ∈ (nativeLoop mode w h steps).1, f.width = w) := by
  constructor
  · unfold h264Loop
    by_cases hinit : env.initOk
    · by_cases hsel : h264VideoStreamIndex env.streams = -1
      · simp [hinit, hsel]
      · simp only [hinit, Bool.not_true, Bool.false_eq_true, if_false]
        rw [if_neg hsel]
        exact h264LoopRun_frames_mem w h _ env.steps
    · rw [Bool.not_eq_true] at hinit
      simp [hinit]
  · exact nativeLoop_frames_width mode w h steps

theorem emitted_frame_dimensions_witness :
    ({ width := 480, height := 480, format := PixFmt.RGB888, isBlack := false } : QImage).width
      = 480 :=
  (emitted_frame_dimensions 480 800 { initOk := false, streams := [], steps := [] }
    .NativeJpg
    [{ interrupted := false, awake := true,
       jpg := { width := 100, height := 100, format := .RGB888, isBlack := false },
       raw := { width := 100, height := 100, format := .RGB888, isBlack := false },
       png := { width := 100, height := 100, format := .RGB888, isBlack := false } }]).2
    _ (by decide)

theorem nativeLoop_asleep_black (w h : Nat) (hw : 0 < w) (mode : VideMode) :
    ∀ (steps : List NativeStep),
      (∀ ev ∈ steps, ev.interrupted = false ∧ ev.awake = false) →
      nativeLoop mode w h steps =
        (List.replicate steps.length (blackImage w h), .fuelOut) := by
  intro steps
  induction steps with
  | nil => intro _; rfl
  | cons ev rest ih =>
    intro hall
    obtain ⟨hi, ha⟩ := hall ev (List.mem_cons_self ev rest)
    have hrest := fun e he => hall e (List.mem_cons_of_mem ev he)
    have hblack : (blackImage w h).scaledToWidth w = blackImage w h := by
      unfold blackImage QImage.scaledToWidth
      simp [Nat.mul_div_cancel h hw]
    simp only [nativeLoop, hi, Bool.false_eq_true, if_false, nativeSource, ha]
    rw [ih hrest, hblack]
    simp [List.replicate_succ]

/-- C10: with a video mode that is none of the three still-image formats,
the snapshot loop returns immediately — emitting nothing — as soon as an
iteration sees the display awake, yet while the display stays asleep the
same configuration emits one solid-black W×H placeholder per interval,
because the mode check sits on the awake branch only. -/
theorem nativeLoop_non_still_mode (mode : VideMode) (w h : Nat) (hw : 0 < w)
    (h1 : mode ≠ .NativeJpg) (h2 : mode ≠ .NativeRaw) (h3 : mode ≠ .NativePng)
    (steps : List NativeStep) :
    (∀ (ev : NativeStep) (rest : List NativeStep), steps = ev :: rest →
      ev.interrupted = false → ev.awake = true →
      nativeLoop mode w h steps = ([], .badModeReturn)) ∧
    ((∀ ev ∈ steps, ev.interrupted = false ∧ ev.awake = false) →
      nativeLoop mode w h steps =
        (List.replicate steps.length (blackImage w h), .fuelOut)) := by
  have hmode : mode = .FastH264 := by
    cases mode
    · rfl
    · exact absurd rfl h1
    · exact absurd rfl h2
    · exact absurd rfl h3
  subst hmode
  constructor
  · intro ev rest hsteps hi ha
    subst hsteps
    simp [nativeLoop, nativeSource, hi, ha]
  · exact nativeLoop_asleep_black w h hw _ steps

theorem nativeLoop_non_still_mode_witness :
    nativeLoop .FastH264 480 800
      [{ interrupted := false, awake := false,
         jpg := { width := 100, height := 100, format := .RGB888, isBlack := false },
         raw := { width := 100, height := 100, format := .RGB888, isBlack := false },
         png := { width := 100, height := 100, format := .RGB888, isBlack := false } },
       { interrupted := false, awake := false,
         jpg := { width := 100, height := 100, format := .RGB888, isBlack := false },
         raw := { width := 100, height := 100, format := .RGB888, isBlack := false },
         png := { width := 100, height := 100, format := .RGB888, isBlack := false } }] =
      (List.replicate 2 (blackImage 480 800), .fuelOut) :=
  (nativeLoop_non_still_mode .FastH264 480 800 (by decide) (by decide) (by decide)
    (by decide) _).2 (by decide)

end DivvyDroid
